/-
  Verification of the lal streaming-server core (chunk framer and group hub).

  The definitions below are a shallow embedding of the Go sources:
    * pkg/rtmp/chunk_composer.go  (chunk framer: ChunkComposer.RunLoop)
    * pkg/logic/group.go          (group hub: publisher/subscriber/relay logic)

  Machine integers (uint32) are modelled as Nat with explicit reduction
  modulo 2^32 exactly where Go arithmetic can wrap.  Byte input is a
  List Nat; a short read surfaces as Option.none, mirroring the io.Reader
  error paths.  log.Panicf is modelled as a distinguished result
  constructor, since a Go panic aborts instead of returning an error.
-/
import Mathlib

set_option maxRecDepth 8000

namespace Lal

/-! ## Byte-level helpers (github.com/q191201771/naza/pkg/bele)

The bele helpers live in the naza dependency (outside this repository);
they are modelled from the spec's bit-exact wire format (§6):
3-byte big-endian, 4-byte big-endian, 4-byte little-endian integers. -/

/-- Modelled from the spec: `bele.BEUint24`, 3-byte big-endian integer. -/
def beUint24 (l : List Nat) : Nat :=
  l.getD 0 0 * 65536 + l.getD 1 0 * 256 + l.getD 2 0

/-- Modelled from the spec: `bele.BEUint32`, 4-byte big-endian integer. -/
def beUint32 (l : List Nat) : Nat :=
  l.getD 0 0 * 16777216 + l.getD 1 0 * 65536 + l.getD 2 0 * 256 + l.getD 3 0

/-- Modelled from the spec: `bele.LEUint32`, 4-byte little-endian integer. -/
def leUint32 (l : List Nat) : Nat :=
  l.getD 0 0 + l.getD 1 0 * 256 + l.getD 2 0 * 65536 + l.getD 3 0 * 16777216

/-- `io.ReadAtLeast(reader, buf[:n], n)`: take exactly `n` bytes from the
input, or fail (short read / I/O error) when fewer are available. -/
def readBytes : Nat → List Nat → Option (List Nat × List Nat)
  | 0, input => some ([], input)
  | _ + 1, [] => none
  | n + 1, b :: rest =>
    match readBytes n rest with
    | none => none
    | some (taken, remain) => some (b :: taken, remain)

/-- Insert-or-replace in an association list (models writing through a Go
map entry). -/
def updateAssoc {α β : Type} [DecidableEq α] : List (α × β) → α → β → List (α × β)
  | [], k, v => [(k, v)]
  | (k2, v2) :: rest, k, v =>
    if k2 = k then (k, v) :: rest else (k2, v2) :: updateAssoc rest k v

/-! ## Chunk framer (pkg/rtmp/chunk_composer.go) -/

/-- Modelled from the spec: rtmp package constant, protocol default chunk
size 128 (`defaultChunkSize`; the constant's defining file is not in the
sources provided). -/
def defaultChunkSize : Nat := 128

/-- Modelled from the spec: rtmp package constant
`maxTimestampInMessageHeader = 0xFFFFFF`, the 24-bit timestamp-ext
sentinel (the constant's defining file is not in the sources provided). -/
def maxTimestampInMessageHeader : Nat := 16777215

/-- Modelled from the spec: rtmp package constant `typeidSetChunkSize = 1`
(spec §4.1: "set-chunk-size (constant = 1)"). -/
def typeidSetChunkSize : Nat := 1

/-- uint32 modulus, used wherever Go uint32 arithmetic can wrap. -/
def u32Mod : Nat := 4294967296

/-- The per-stream message header (`base.RTMPHeader` as used by
chunk_composer.go): CSID, MsgLen, MsgTypeID, MsgStreamID, Timestamp (the
raw chunk-header field, possibly replaced by the extended value) and
TimestampAbs (the running absolute timestamp). -/
structure RTMPHeader where
  csid : Nat := 0
  msgLen : Nat := 0
  msgTypeId : Nat := 0
  msgStreamId : Nat := 0
  timestamp : Nat := 0
  timestampAbs : Nat := 0

/-- Per-csid stream state (`rtmp.Stream`, whose defining file is not in
the sources provided; modelled from the spec's ChunkStream:
`{csid, last_header, accumulating_payload, accumulating_len}`).
`msg` is the accumulated payload; `reserve` only grows capacity and is a
no-op on the observable state, `produced` appends, `clear` empties. -/
structure Stream where
  header : RTMPHeader := {}
  msg : List Nat := []

/-- `rtmp.ChunkComposer`: peer chunk size plus the csid → Stream table. -/
structure ChunkComposer where
  peerChunkSize : Nat
  csid2stream : List (Nat × Stream)

/-- `NewChunkComposer`. -/
def newChunkComposer : ChunkComposer :=
  { peerChunkSize := defaultChunkSize, csid2stream := [] }

/-- `ChunkComposer.getOrCreateStream`. -/
def getOrCreateStream (c : ChunkComposer) (csid : Nat) : Stream :=
  (c.csid2stream.lookup csid).getD {}

/-- Store back the (mutated) stream for `csid`. -/
def setStream (c : ChunkComposer) (csid : Nat) (s : Stream) : ChunkComposer :=
  { c with csid2stream := updateAssoc c.csid2stream csid s }

/-- 5.3.1.1 Chunk Basic Header: `fmt = (b0 >> 6) & 0x03`,
`csid = b0 & 0x3f` with escape values 0 (one extra byte, `64 + b`) and
1 (two extra bytes, `64 + b1 + 256*b2`). -/
def parseBasicHeader (input : List Nat) : Option (Nat × Nat × List Nat) :=
  match input with
  | [] => none
  | b0 :: rest =>
    let fm := b0 / 64 % 4
    let cs := b0 % 64
    match cs with
    | 0 =>
      match rest with
      | [] => none
      | b1 :: rest2 => some (fm, 64 + b1, rest2)
    | 1 =>
      match rest with
      | b1 :: b2 :: rest2 => some (fm, 64 + b1 + b2 * 256, rest2)
      | _ => none
    | _ => some (fm, cs, rest)

/-- 5.3.1.2 Chunk Message Header: fmt 0 reads 11 bytes (absolute ts,
length, type, little-endian msg-stream-id), fmt 1 reads 7 (delta, length,
type), fmt 2 reads 3 (delta), fmt 3 reads nothing.  `stream.msg.reserve`
only grows buffer capacity, so it has no observable effect here. -/
def parseMessageHeader (fm : Nat) (s : Stream) (input : List Nat) :
    Option (Stream × List Nat) :=
  match fm with
  | 0 =>
    match readBytes 11 input with
    | none => none
    | some (b, rest2) =>
      some ({ s with header :=
          { s.header with
            timestamp := beUint24 b
            timestampAbs := beUint24 b
            msgLen := beUint24 (b.drop 3)
            msgTypeId := b.getD 6 0
            msgStreamId := leUint32 (b.drop 7) } }, rest2)
  | 1 =>
    match readBytes 7 input with
    | none => none
    | some (b, rest2) =>
      some ({ s with header :=
          { s.header with
            timestamp := beUint24 b
            msgLen := beUint24 (b.drop 3)
            msgTypeId := b.getD 6 0 } }, rest2)
  | 2 =>
    match readBytes 3 input with
    | none => none
    | some (b, rest2) =>
      some ({ s with header := { s.header with timestamp := beUint24 b } }, rest2)
  | _ => some (s, input)

/-- 5.3.1.3 Extended Timestamp: when the stored 24-bit timestamp field is
`>= maxTimestampInMessageHeader` (the source deliberately uses `>=`, not
`==`), a 4-byte big-endian extended timestamp is read and replaces
`header.Timestamp`; fmt 0 then sets `TimestampAbs` to it, fmt 1/2 set
`TimestampAbs = TimestampAbs - maxTimestampInMessageHeader + Timestamp`
(uint32 arithmetic), fmt 3 leaves `TimestampAbs` alone. -/
def readExtTimestamp (fm : Nat) (s : Stream) (input : List Nat) :
    Option (Stream × List Nat) :=
  if maxTimestampInMessageHeader ≤ s.header.timestamp then
    match readBytes 4 input with
    | none => none
    | some (b, rest2) =>
      let t := beUint32 b
      let s1 := { s with header := { s.header with timestamp := t } }
      let s2 :=
        match fm with
        | 0 => { s1 with header := { s1.header with timestampAbs := t } }
        | 1 => { s1 with header := { s1.header with
                  timestampAbs :=
                    (s.header.timestampAbs + u32Mod - maxTimestampInMessageHeader + t) % u32Mod } }
        | 2 => { s1 with header := { s1.header with
                  timestampAbs :=
                    (s.header.timestampAbs + u32Mod - maxTimestampInMessageHeader + t) % u32Mod } }
        | _ => s1
      some (s2, rest2)
  else
    some (s, input)

/-- Payload sizing (chunk_composer.go lines 138-146): if the whole message
fits in one chunk read `MsgLen` bytes, otherwise read
`MsgLen - msg.len()` (uint32 subtraction) clamped to the peer chunk
size. -/
def neededSize (chunkSize msgLen accLen : Nat) : Nat :=
  if msgLen ≤ chunkSize then msgLen
  else
    let n := (msgLen + u32Mod - accLen % u32Mod) % u32Mod
    if n > chunkSize then chunkSize else n

/-- The variable-length header portion of one chunk after the basic
header: message header (5.3.1.2) followed by the optional extended
timestamp (5.3.1.3). -/
def headerPhase (fm : Nat) (s : Stream) (input : List Nat) :
    Option (Stream × List Nat) :=
  (parseMessageHeader fm s input).bind (fun p => readExtTimestamp fm p.1 p.2)

/-- A complete message as handed to the `OnCompleteMessage` callback. -/
structure AVMessage where
  csid : Nat
  timestampAbs : Nat
  msgTypeId : Nat
  msgLen : Nat
  msgStreamId : Nat
  payload : List Nat

/-- Result of one iteration of the RunLoop body. -/
inductive StepResult where
  /-- a read came up short: the I/O error is returned to the caller -/
  | ioError : StepResult
  /-- `log.Panicf` on length overrun, carrying the logged
  `len.in.header` and `stream.msg.len` values -/
  | panicked (msgLen accLen : Nat) : StepResult
  /-- normal progress: new composer state, new `absTsFlag`, remaining
  input, and the completed message (if this chunk finished one) -/
  | ok (c : ChunkComposer) (absTsFlag : Bool) (rest : List Nat)
       (emitted : Option AVMessage) : StepResult

/-- One iteration of `ChunkComposer.RunLoop` (chunk_composer.go lines
45-177): basic header, message header, extended timestamp, payload read,
then the completion block (set-chunk-size intercept, CSID, the
`absTsFlag`-guarded `TimestampAbs += Timestamp`, callback, clear) and the
length-overrun panic check. -/
def runStep (c : ChunkComposer) (absTsFlag : Bool) (input : List Nat) :
    StepResult :=
  match parseBasicHeader input with
  | none => .ioError
  | some (fm, csid, rest) =>
    let s0 := getOrCreateStream c csid
    let flag1 := if fm = 0 then true else absTsFlag
    match headerPhase fm s0 rest with
    | none => .ioError
    | some (s2, rest2) =>
        let n := neededSize c.peerChunkSize s2.header.msgLen s2.msg.length
        match readBytes n rest2 with
        | none => .ioError
        | some (payload, rest3) =>
          let s3 := { s2 with msg := s2.msg ++ payload }
          if s3.msg.length = s3.header.msgLen then
            let c1 :=
              if s3.header.msgTypeId = typeidSetChunkSize then
                { c with peerChunkSize := beUint32 s3.msg }
              else c
            let s4 := { s3 with header := { s3.header with csid := csid } }
            let s5 :=
              if flag1 then s4
              else { s4 with header := { s4.header with
                      timestampAbs :=
                        (s4.header.timestampAbs + s4.header.timestamp) % u32Mod } }
            let m : AVMessage :=
              { csid := csid
                timestampAbs := s5.header.timestampAbs
                msgTypeId := s5.header.msgTypeId
                msgLen := s5.header.msgLen
                msgStreamId := s5.header.msgStreamId
                payload := s5.msg }
            .ok (setStream c1 csid { s5 with msg := [] }) false rest3 (some m)
          else if s3.msg.length > s3.header.msgLen then
            .panicked s3.header.msgLen s3.msg.length
          else
            .ok (setStream c csid s3) flag1 rest3 none

/-- Outcome of running the loop with a given amount of fuel. -/
inductive RunResult where
  /-- a read failed; the error is returned (messages already delivered
  to the callback are listed in order) -/
  | ioError (msgs : List AVMessage) : RunResult
  /-- `log.Panicf` fired (length overrun): the process aborts instead of
  returning an error -/
  | panicked (msgs : List AVMessage) (msgLen accLen : Nat) : RunResult
  /-- fuel ran out with the loop still going -/
  | outOfFuel (msgs : List AVMessage) (c : ChunkComposer)
              (absTsFlag : Bool) (rest : List Nat) : RunResult

/-- Record one delivered message in front of a run outcome. -/
def RunResult.push (m : AVMessage) : RunResult → RunResult
  | .ioError msgs => .ioError (m :: msgs)
  | .panicked msgs a b => .panicked (m :: msgs) a b
  | .outOfFuel msgs c f r => .outOfFuel (m :: msgs) c f r

/-- `ChunkComposer.RunLoop`, fuel-indexed: iterate `runStep`, collecting
the messages handed to the callback in delivery order.  `absTsFlag`
starts false (chunk_composer.go line 43). -/
def runLoop : Nat → ChunkComposer → Bool → List Nat → RunResult
  | 0, c, flag, input => .outOfFuel [] c flag input
  | fuel + 1, c, flag, input =>
    match runStep c flag input with
    | .ioError => .ioError []
    | .panicked a b => .panicked [] a b
    | .ok c1 flag1 rest emitted =>
      match emitted with
      | none => runLoop fuel c1 flag1 rest
      | some m => (runLoop fuel c1 flag1 rest).push m

/-- The messages a run delivered to the callback, in order. -/
def runMsgs : RunResult → List AVMessage
  | .ioError msgs => msgs
  | .panicked msgs _ _ => msgs
  | .outOfFuel msgs _ _ _ => msgs

/-! ### Concrete framer inputs used by the claims -/

/-- A composer whose peer chunk size has been set to 4 (the capability
the source exposes as `SetPeerChunkSize`); small chunks keep the concrete
traces cheap to evaluate in the kernel. -/
def smallComposer : ChunkComposer :=
  { peerChunkSize := 4, csid2stream := [] }

/-- Interleaved chunk streams (peer chunk size 4): a fmt-0 chunk opens an
8-byte message on csid 3 (absolute ts 100, two 4-byte chunks); before its
fmt-3 continuation arrives, a complete one-chunk fmt-1 message (delta 50,
1 byte) goes by on csid 4. -/
def interleavedInput : List Nat :=
  [3, 0,0,100, 0,0,8, 9, 1,0,0,0] ++ [7,7,7,7]
  ++ ([68, 0,0,50, 0,0,1, 9] ++ [170])
  ++ ([195] ++ [8,8,8,8])

/-- A single fmt-1 chunk on csid 3 whose 24-bit delta field is 0xFFFFFF,
followed by the 4-byte extended timestamp 0x01000000 (= 16777216) and a
1-byte payload, completing the message. -/
def extTsDeltaInput : List Nat :=
  [67, 255,255,255, 0,0,1, 9] ++ ([1,0,0,0] ++ [85])

/-- (Peer chunk size 4.)  A fmt-0 chunk on csid 3 declares an 8-byte
message and delivers its first 4-byte chunk; then a fmt-1 chunk on the
same csid re-declares `MsgLen = 2` and delivers 2 more bytes, driving the
accumulated length (6) past the declared length (2): a length overrun. -/
def overrunInput : List Nat :=
  [3, 0,0,44, 0,0,8, 9, 1,0,0,0] ++ [1,1,1,1]
  ++ ([67, 0,0,10, 0,0,2, 9] ++ [2,2])

/-- Composer state with csid 6 already at absolute timestamp 480, as in
the session log quoted at the bottom of chunk_composer.go (scaled to a
4-byte chunk size to keep evaluation shallow). -/
def composer480 : ChunkComposer :=
  { peerChunkSize := 4
    csid2stream :=
      [(6, { header := { csid := 6, timestampAbs := 480, timestamp := 40,
                         msgLen := 3, msgTypeId := 9, msgStreamId := 1 },
             msg := [] })] }

/-- The shape of that log: fmt-1 delta 40 (one chunk), then fmt-1 delta
40 whose 6-byte message is split into a full chunk plus a fmt-3
continuation. -/
def trailerInput : List Nat :=
  ([70, 0,0,40, 0,0,3, 9] ++ [1,1,1])
  ++ ([70, 0,0,40, 0,0,6, 9] ++ [2,2,2,2])
  ++ ([198] ++ [3,3])

/-- Regression check mirroring the repository's recorded trace
(chunk_composer.go lines 194-198): the fmt-3 continuation yields a single
delivery and a single delta accumulation — absolute timestamps 520 then
560. -/
theorem runLoop_matches_recorded_trace :
    (runMsgs (runLoop 3 composer480 false trailerInput)).map
        (fun m => (m.csid, m.timestampAbs, m.msgLen, m.payload.length))
      = [(6, 520, 3, 3), (6, 560, 6, 6)] := rfl

/-! ### Claims about the framer -/

/-- C1.  The claim requires the fmt-1/fmt-2 delta to be accumulated into
the per-chunk-stream absolute timestamp exactly once per message, on the
terminal chunk, and only if no fmt-0 chunk occurred for that same
message; completing an interleaved message on a different csid must not
suppress or duplicate the accumulation.  The code violates this: the
`absTsFlag` latch (chunk_composer.go lines 43, 83, 162-166) is a single
variable shared by every chunk stream and is cleared on any message
completion.  On `interleavedInput` the fmt-1 message on csid 4
(delta 50 from absolute 0) completes while the flag is still set by the
pending fmt-0 message on csid 3, so its accumulation is suppressed
(emitted at 0 instead of 50); that completion clears the flag, so the
csid-3 fmt-0 message (absolute 100) then accumulates its own absolute
timestamp again on its terminal chunk (emitted at 200 instead of 100). -/
theorem interleaved_completion_corrupts_timestampAbs :
    (runMsgs (runLoop 4 smallComposer false interleavedInput)).map
        (fun m => (m.csid, m.timestampAbs)) = [(4, 0), (3, 200)] := rfl

/-- C2.  The claim requires a fmt-1/fmt-2 chunk that carries an extended
timestamp to add exactly `(extended - 0xFFFFFF)` to the running absolute
timestamp, applied once.  The code applies the delta at the
extended-timestamp branch (line 132: `TimestampAbs - 0xFFFFFF + ext`)
AND again at message completion (line 164: `TimestampAbs += Timestamp`,
where `Timestamp` now holds the extended value), since `absTsFlag` is
only set by fmt-0 chunks.  On `extTsDeltaInput` (fresh stream, absolute
0, extended value 16777216) the message should be emitted at
`16777216 - 16777215 = 1`; the code emits it at
`1 + 16777216 = 16777217`. -/
theorem extended_timestamp_delta_double_added :
    (runMsgs (runLoop 2 newChunkComposer false extTsDeltaInput)).map
        (fun m => m.timestampAbs) = [16777217] := rfl

/-- C5.  Whenever the 24-bit timestamp field is `>= 0xFFFFFF`, a 4-byte
big-endian extended timestamp is read immediately after the message
header; for fmt-0 chunks it becomes the absolute timestamp, and a fmt-3
continuation chunk whose stored timestamp (left by the earlier extended
read) is `>= 0xFFFFFF` also consumes the 4-byte field. -/
theorem extended_timestamp_field_read (s : Stream)
    (t0 t1 t2 l0 l1 l2 ty m0 m1 m2 m3 e0 e1 e2 e3 : Nat) (rest : List Nat)
    (h0 : maxTimestampInMessageHeader ≤ beUint24 [t0, t1, t2])
    (h3 : maxTimestampInMessageHeader ≤ s.header.timestamp) :
    headerPhase 0 s
        (t0 :: t1 :: t2 :: l0 :: l1 :: l2 :: ty ::
          m0 :: m1 :: m2 :: m3 :: e0 :: e1 :: e2 :: e3 :: rest)
      = some ({ s with header :=
          { s.header with
            timestamp := beUint32 [e0, e1, e2, e3]
            timestampAbs := beUint32 [e0, e1, e2, e3]
            msgLen := beUint24 [l0, l1, l2]
            msgTypeId := ty
            msgStreamId := leUint32 [m0, m1, m2, m3] } }, rest)
    ∧ headerPhase 3 s (e0 :: e1 :: e2 :: e3 :: rest)
      = some ({ s with header :=
          { s.header with timestamp := beUint32 [e0, e1, e2, e3] } }, rest) := by
  constructor
  · simp only [beUint24, List.getD_cons_zero, List.getD_cons_succ] at h0
    simp [headerPhase, parseMessageHeader, readExtTimestamp, readBytes,
      beUint24, beUint32, leUint32, h0]
  · simp only [headerPhase, parseMessageHeader, Option.some_bind,
      readExtTimestamp]
    simp [h3, readBytes]

/-- Closed instance of `extended_timestamp_field_read`: both hypotheses
hold at a fmt-3 continuation whose stored timestamp 16777216 came from a
prior extended read, and the 4-byte field [2,0,0,1] is consumed. -/
theorem extended_timestamp_field_read_witness :
    (maxTimestampInMessageHeader ≤ beUint24 [255, 255, 255]
      ∧ maxTimestampInMessageHeader ≤
          (Stream.mk { csid := 3, timestamp := 16777216, timestampAbs := 480 } []).header.timestamp)
    ∧ headerPhase 3 (Stream.mk { csid := 3, timestamp := 16777216, timestampAbs := 480 } [])
        [2, 0, 0, 1, 99]
      = some (Stream.mk { csid := 3, timestamp := beUint32 [2, 0, 0, 1], timestampAbs := 480 } [],
              [99]) := by
  refine ⟨⟨by decide, by decide⟩, ?_⟩
  exact (extended_timestamp_field_read
    (Stream.mk { csid := 3, timestamp := 16777216, timestampAbs := 480 } [])
    255 255 255 0 0 1 9 0 0 0 0 2 0 0 1 [99] (by decide) (by decide)).2

/-- C6.  A completed message with type id 1 (set-chunk-size) has its
4-byte big-endian body decoded into the peer chunk size in the same step
that returns the message, and payload sizing then reads
`min(chunk_size, remaining)` bytes per chunk (under the conditions in
which the accumulator is consistent: a fresh message, or a message larger
than the chunk size). -/
theorem set_chunk_size_intercept :
    (∀ (flag : Bool) (v0 v1 v2 v3 : Nat) (rest : List Nat),
      runStep newChunkComposer flag
          ([2, 0,0,0, 0,0,4, 1, 0,0,0,0] ++ (v0 :: v1 :: v2 :: v3 :: rest))
        = .ok { peerChunkSize := beUint32 [v0, v1, v2, v3]
                csid2stream :=
                  [(2, { header := { csid := 2, msgLen := 4, msgTypeId := 1,
                                     msgStreamId := 0, timestamp := 0,
                                     timestampAbs := 0 },
                         msg := [] })] }
            false rest
            (some { csid := 2, timestampAbs := 0, msgTypeId := 1, msgLen := 4,
                    msgStreamId := 0, payload := [v0, v1, v2, v3] }))
    ∧ (∀ cs msgLen accLen : Nat, msgLen < u32Mod → accLen ≤ msgLen →
        (accLen = 0 ∨ cs < msgLen) →
        neededSize cs msgLen accLen = min cs (msgLen - accLen)) := by
  constructor
  · intro flag v0 v1 v2 v3 rest
    rfl
  · intro cs msgLen accLen h1 h2 h3
    simp only [neededSize, u32Mod] at h1 ⊢
    split_ifs <;> omega

/-- Closed instance of `set_chunk_size_intercept`: a body of 0x00001000
sets the peer chunk size to 4096, and a 10000-byte message is then sliced
in 4096-byte units. -/
theorem set_chunk_size_intercept_witness :
    runStep newChunkComposer false
        ([2, 0,0,0, 0,0,4, 1, 0,0,0,0] ++ [0, 0, 16, 0])
      = .ok { peerChunkSize := 4096
              csid2stream :=
                [(2, { header := { csid := 2, msgLen := 4, msgTypeId := 1,
                                   msgStreamId := 0, timestamp := 0,
                                   timestampAbs := 0 },
                       msg := [] })] }
          false []
          (some { csid := 2, timestampAbs := 0, msgTypeId := 1, msgLen := 4,
                  msgStreamId := 0, payload := [0, 0, 16, 0] })
    ∧ neededSize 4096 10000 0 = min 4096 (10000 - 0) := by
  refine ⟨?_, set_chunk_size_intercept.2 4096 10000 0 (by decide) (by decide) (Or.inl rfl)⟩
  exact set_chunk_size_intercept.1 false 0 0 16 0 []

/-- C7 counterexample.  The claim states that a length overrun is logged
and returned to the caller of the run loop rather than aborting.  On
`overrunInput` the code instead reaches `log.Panicf` (chunk_composer.go
line 175), which logs and panics — the `.panicked` outcome below, carrying
the logged header length 2 and accumulated length 6; no error value is
returned. -/
theorem length_overrun_panics :
    runLoop 2 smallComposer false overrunInput = .panicked [] 2 6 := rfl

/-- C7 amended.  A length overrun is session-fatal: it is logged and
raised as a panic (`log.Panicf`), aborting instead of returning an error;
a short read from the source, by contrast, returns the I/O error to the
caller and terminates the loop. -/
theorem overrun_panics_and_short_read_returns :
    runLoop 2 smallComposer false overrunInput = .panicked [] 2 6
    ∧ ∀ (c : ChunkComposer) (flag : Bool) (fuel : Nat),
        runLoop (fuel + 1) c flag [] = .ioError [] := by
  refine ⟨rfl, ?_⟩
  intro c flag fuel
  rfl

/-! ## Group hub (pkg/logic/group.go)

Sessions are modelled by what the group observes of them: publisher /
pull / push sessions by an opaque numeric unique key, subscriber sessions
by their `IsFresh` latch plus the ordered list of byte buffers written to
them (`AsyncWrite` / `WriteRawPacket` append).  Rendered media buffers
(`lcd.Get()` / `lrm2ft.Get()` results and GOP-cache entries) are opaque
byte lists. -/

/-- An opaque rendered media buffer. -/
abbrev AVData := List Nat

/-- `rtmp.ServerSession` in the subscriber role: the `IsFresh` latch and
the ordered log of buffers passed to `AsyncWrite`. -/
structure RTMPSubSession where
  uniqueKey : Nat
  isFresh : Bool
  written : List AVData

/-- `httpflv.SubSession`: the `IsFresh` latch and the ordered log of
buffers passed to `WriteRawPacket`. -/
structure HTTPFLVSubSession where
  uniqueKey : Nat
  isFresh : Bool
  written : List AVData

/-- `logic.pushProxy`. -/
structure PushProxy where
  isPushing : Bool
  pushSession : Option Nat

/-- `logic.GOPCache` as the group uses it (the cache's own file is not in
the sources provided; modelled from the spec §4.4: latched metadata,
video and audio sequence headers, and a ring of completed GOPs, each an
ordered list of rendered messages). -/
structure GOPCache where
  metadata : Option AVData
  videoSeqHeader : Option AVData
  aacSeqHeader : Option AVData
  gops : List (List AVData)

/-- `NewGOPCache` (spec-modelled): everything empty. -/
def emptyGOPCache : GOPCache :=
  { metadata := none, videoSeqHeader := none, aacSeqHeader := none, gops := [] }

/-- `GOPCache.GetGOPCount` (spec-modelled). -/
def GOPCache.getGOPCount (c : GOPCache) : Nat := c.gops.length

/-- `GOPCache.GetGOPDataAt` (spec-modelled). -/
def GOPCache.getGOPDataAt (c : GOPCache) (i : Nat) : List AVData :=
  c.gops.getD i []

/-- `GOPCache.Clear` (spec-modelled: "clear(): reset all state"). -/
def GOPCache.clearAll (_ : GOPCache) : GOPCache := emptyGOPCache

/-- The configuration the group consults (config keys of spec §6). -/
structure Config where
  hlsEnable : Bool
  relayPullEnable : Bool
  relayPullAddr : String
  relayPushEnable : Bool
  relayPushAddrList : List String

/-- `logic.Group`: the state mutated under the group mutex.  The HLS
muxer is opaque (only nil / non-nil matters to the group's logic);
`url2PushProxy` is `none` exactly when the Go map is nil (after
`Dispose`). -/
structure Group where
  appName : String
  streamName : String
  pubSession : Option Nat
  rtmpSubSessionSet : List RTMPSubSession
  httpflvSubSessionSet : List HTTPFLVSubSession
  hlsMuxer : Option Unit
  url2PushProxy : Option (List (String × PushProxy))
  pullSession : Option Nat
  isPulling : Bool
  gopCache : GOPCache
  httpflvGopCache : GOPCache

/-- The relay-push url for one configured address
(`fmt.Sprintf("rtmp://%s/%s/%s", addr, appName, streamName)`). -/
def pushURL (addr appName streamName : String) : String :=
  "rtmp://" ++ addr ++ "/" ++ appName ++ "/" ++ streamName

/-- `logic.NewGroup`: empty sets and caches; the push-proxy map is
populated from the relay-push address list only when relay push is
enabled (group.go lines 58-67), but the map itself always exists. -/
def newGroup (cfg : Config) (appName streamName : String) : Group :=
  { appName := appName
    streamName := streamName
    pubSession := none
    rtmpSubSessionSet := []
    httpflvSubSessionSet := []
    hlsMuxer := none
    url2PushProxy := some
      (if cfg.relayPushEnable then
        cfg.relayPushAddrList.map
          (fun addr => (pushURL addr appName streamName,
                        { isPushing := false, pushSession := none }))
      else [])
    pullSession := none
    isPulling := false
    gopCache := emptyGOPCache
    httpflvGopCache := emptyGOPCache }

/-- `Group.pushIfNeeded` (group.go lines 478-514): when relay push is
enabled and a publisher exists, mark every idle proxy as pushing and
spawn one push task for each; returns the group and the number of tasks
spawned. -/
def pushIfNeeded (cfg : Config) (g : Group) : Group × Nat :=
  if !cfg.relayPushEnable then (g, 0)
  else if g.pubSession = none then (g, 0)
  else
    match g.url2PushProxy with
    | none => (g, 0)
    | some m =>
      let m2 := m.map (fun e =>
        if e.2.isPushing then e else (e.1, { e.2 with isPushing := true }))
      ({ g with url2PushProxy := some m2 },
       (m.filter (fun e => !e.2.isPushing)).length)

/-- `Group.pullIfNeeded` (group.go lines 441-476): when relay pull is
enabled, a subscriber exists, no publisher or pull session is installed,
and `isPulling` is false, set `isPulling` and spawn (exactly one) pull
task; returns whether a task was spawned. -/
def pullIfNeeded (cfg : Config) (g : Group) : Group × Bool :=
  if !cfg.relayPullEnable then (g, false)
  else if g.rtmpSubSessionSet.length = 0 ∧ g.httpflvSubSessionSet.length = 0 then (g, false)
  else if g.pubSession ≠ none ∨ g.pullSession ≠ none then (g, false)
  else if g.isPulling then (g, false)
  else ({ g with isPulling := true }, true)

/-- `Group.AddRTMPPubSession` (group.go lines 139-163): reject when a
publisher exists; otherwise install the session, start the HLS muxer if
enabled, and trigger `pushIfNeeded` if relay push is enabled. -/
def addRTMPPubSession (cfg : Config) (g : Group) (s : Nat) : Bool × Group :=
  match g.pubSession with
  | some _ => (false, g)
  | none =>
    let g1 := { g with pubSession := some s }
    let g2 := if cfg.hlsEnable then { g1 with hlsMuxer := some () } else g1
    let g3 := if cfg.relayPushEnable then (pushIfNeeded cfg g2).1 else g2
    (true, g3)

/-- `Group.DelRTMPPubSession` (group.go lines 165-189): clear the
publisher, dispose the HLS muxer if enabled, dispose and clear every push
session if relay push is enabled, and clear both GOP caches. -/
def delRTMPPubSession (cfg : Config) (g : Group) : Group :=
  { g with
    pubSession := none
    hlsMuxer := if cfg.hlsEnable then none else g.hlsMuxer
    url2PushProxy :=
      if cfg.relayPushEnable then
        g.url2PushProxy.map (List.map (fun e => (e.1, { e.2 with pushSession := none })))
      else g.url2PushProxy
    gopCache := g.gopCache.clearAll
    httpflvGopCache := g.httpflvGopCache.clearAll }

/-- `Group.AddRTMPPullSession` (group.go lines 191-203): install the pull
session and start the HLS muxer if enabled.  (The mutex mis-use of this
function is modelled separately by its event trace below.) -/
def addRTMPPullSession (cfg : Config) (g : Group) (s : Nat) : Group :=
  { g with
    pullSession := some s
    hlsMuxer := if cfg.hlsEnable then some () else g.hlsMuxer }

/-- `Group.DelRTMPPullSession` (group.go lines 205-221): clear the pull
session, reset `isPulling`, dispose the HLS muxer if enabled, and clear
both GOP caches. -/
def delRTMPPullSession (cfg : Config) (g : Group) : Group :=
  { g with
    pullSession := none
    isPulling := false
    hlsMuxer := if cfg.hlsEnable then none else g.hlsMuxer
    gopCache := g.gopCache.clearAll
    httpflvGopCache := g.httpflvGopCache.clearAll }

/-- `Group.AddRTMPSubSession` (group.go lines 223-230): insert into the
set, then `pullIfNeeded`. -/
def addRTMPSubSession (cfg : Config) (g : Group) (s : RTMPSubSession) :
    Group × Bool :=
  pullIfNeeded cfg { g with rtmpSubSessionSet := g.rtmpSubSessionSet ++ [s] }

/-- `Group.DelRTMPSubSession` (group.go lines 232-237). -/
def delRTMPSubSession (g : Group) (key : Nat) : Group :=
  { g with rtmpSubSessionSet :=
      g.rtmpSubSessionSet.filter (fun s => s.uniqueKey ≠ key) }

/-- `Group.AddHTTPFLVSubSession` (group.go lines 239-249). -/
def addHTTPFLVSubSession (cfg : Config) (g : Group) (s : HTTPFLVSubSession) :
    Group × Bool :=
  pullIfNeeded cfg { g with httpflvSubSessionSet := g.httpflvSubSessionSet ++ [s] }

/-- `Group.DelHTTPFLVSubSession` (group.go lines 251-256). -/
def delHTTPFLVSubSession (g : Group) (key : Nat) : Group :=
  { g with httpflvSubSessionSet :=
      g.httpflvSubSessionSet.filter (fun s => s.uniqueKey ≠ key) }

/-- Possible outcomes of a push-proxy table access: writing a field of
`group.url2PushProxy[url]` panics with a nil-pointer dereference when
`url` is not a key of the map (a Go map miss yields a nil `*pushProxy`). -/
inductive PushOutcome where
  | ok (g : Group) : PushOutcome
  | nilPointerPanic : PushOutcome

/-- `Group.AddRTMPPushSession` (group.go lines 258-265): when the map is
non-nil, write the session through the proxy pointer for `url` —
panicking if `url` was never configured. -/
def addRTMPPushSession (g : Group) (url : String) (s : Nat) : PushOutcome :=
  match g.url2PushProxy with
  | none => .ok g
  | some m =>
    match m.lookup url with
    | none => .nilPointerPanic
    | some p =>
      let m2 := updateAssoc m url { p with pushSession := some s }
      .ok { g with url2PushProxy := some m2 }

/-- `Group.DelRTMPPushSession` (group.go lines 267-275): same access
pattern; also clears `isPushing`. -/
def delRTMPPushSession (g : Group) (url : String) : PushOutcome :=
  match g.url2PushProxy with
  | none => .ok g
  | some m =>
    match m.lookup url with
    | none => .nilPointerPanic
    | some p =>
      let m2 := updateAssoc m url { p with pushSession := none, isPushing := false }
      .ok { g with url2PushProxy := some m2 }

/-! ### Broadcast (group.go `broadcastRTMP`, lines 335-439) -/

/-- The cached-state writes replayed to a fresh subscriber, in source
order (lines 355-368 / 410-423): metadata if present, video sequence
header if present, audio sequence header if present, then every message
of every cached GOP by index. -/
def freshReplayWrites (cache : GOPCache) : List AVData :=
  (match cache.metadata with | some d => [d] | none => [])
  ++ (match cache.videoSeqHeader with | some d => [d] | none => [])
  ++ (match cache.aacSeqHeader with | some d => [d] | none => [])
  ++ ((List.range cache.getGOPCount).map cache.getGOPDataAt).flatten

/-- Body of the rtmp subscriber loop (lines 351-375): a fresh session
receives the cached state first and its latch is cleared; every session
then receives the current chunked message. -/
def broadcastToRTMPSub (cache : GOPCache) (cur : AVData)
    (s : RTMPSubSession) : RTMPSubSession :=
  if s.isFresh then
    { s with written := s.written ++ freshReplayWrites cache ++ [cur]
             isFresh := false }
  else
    { s with written := s.written ++ [cur] }

/-- The rtmp subscriber loop over the whole set. -/
def broadcastRTMPSubs (cache : GOPCache) (cur : AVData)
    (subs : List RTMPSubSession) : List RTMPSubSession :=
  subs.map (broadcastToRTMPSub cache cur)

/-- Body of the httpflv subscriber loop (lines 407-429), identical in
shape but using the httpflv cache and tag bytes. -/
def broadcastToHTTPFLVSub (cache : GOPCache) (cur : AVData)
    (s : HTTPFLVSubSession) : HTTPFLVSubSession :=
  if s.isFresh then
    { s with written := s.written ++ freshReplayWrites cache ++ [cur]
             isFresh := false }
  else
    { s with written := s.written ++ [cur] }

/-- The httpflv subscriber loop over the whole set. -/
def broadcastHTTPFLVSubs (cache : GOPCache) (cur : AVData)
    (subs : List HTTPFLVSubSession) : List HTTPFLVSubSession :=
  subs.map (broadcastToHTTPFLVSub cache cur)

/-! ### Helper lemmas about the group operations -/

lemma range_getD_flatten {α : Type} (l : List (List α)) :
    ((List.range l.length).map (fun i => l.getD i [])).flatten = l.flatten := by
  induction l with
  | nil => simp
  | cons a l ih =>
    rw [List.length_cons, List.range_succ_eq_map, List.map_cons, List.map_map]
    have hsucc : ((fun i => (a :: l).getD i []) ∘ Nat.succ)
        = (fun i => l.getD i []) := by
      funext i
      exact List.getD_cons_succ
    rw [hsucc, List.flatten_cons, ih, List.getD_cons_zero, List.flatten_cons]

lemma optWrites_eq_toList (o : Option AVData) :
    (match o with | some d => [d] | none => []) = o.toList := by
  cases o <;> rfl

lemma freshReplayWrites_eq (cache : GOPCache) :
    freshReplayWrites cache
      = cache.metadata.toList ++ cache.videoSeqHeader.toList
        ++ cache.aacSeqHeader.toList ++ cache.gops.flatten := by
  unfold freshReplayWrites GOPCache.getGOPCount GOPCache.getGOPDataAt
  rw [range_getD_flatten]
  simp [optWrites_eq_toList]

lemma pushIfNeeded_fst_pubSession (cfg : Config) (g : Group) :
    (pushIfNeeded cfg g).1.pubSession = g.pubSession := by
  unfold pushIfNeeded
  rcases h : g.url2PushProxy with _ | m <;> split_ifs <;> simp [h]

lemma pushIfNeeded_fst_isPulling (cfg : Config) (g : Group) :
    (pushIfNeeded cfg g).1.isPulling = g.isPulling := by
  unfold pushIfNeeded
  rcases h : g.url2PushProxy with _ | m <;> split_ifs <;> simp [h]

lemma addRTMPPubSession_snd_isPulling (cfg : Config) (g : Group) (s : Nat) :
    (addRTMPPubSession cfg g s).2.isPulling = g.isPulling := by
  unfold addRTMPPubSession
  rcases h : g.pubSession with _ | p
  · split_ifs <;> simp [pushIfNeeded_fst_isPulling]
  · rfl

lemma pullIfNeeded_cases (cfg : Config) (g : Group) :
    pullIfNeeded cfg g = (g, false)
    ∨ (g.isPulling = false
       ∧ pullIfNeeded cfg g = ({ g with isPulling := true }, true)) := by
  unfold pullIfNeeded
  split_ifs with h1 h2 h3 h4
  · exact Or.inl rfl
  · exact Or.inl rfl
  · exact Or.inl rfl
  · exact Or.inl rfl
  · exact Or.inr ⟨by simpa using h4, rfl⟩

lemma pullIfNeeded_spawn_iff (cfg : Config) (g : Group) :
    (pullIfNeeded cfg g).2 = true ↔
      cfg.relayPullEnable = true
      ∧ (g.rtmpSubSessionSet ≠ [] ∨ g.httpflvSubSessionSet ≠ [])
      ∧ g.pubSession = none ∧ g.pullSession = none
      ∧ g.isPulling = false := by
  unfold pullIfNeeded
  split_ifs with h1 h2 h3 h4 <;>
    simp_all [List.length_eq_zero, not_or, Decidable.not_not]
  · intro hsub hpub hpull
    rcases h3 with h | h
    · exact absurd hpub h
    · exact absurd hpull h
  · by_cases hr : g.rtmpSubSessionSet = []
    · exact Or.inr (h2 hr)
    · exact Or.inl hr

/-! ### Claims about the group -/

/-- C3.  During a broadcast, a subscriber whose `IsFresh` latch is set
receives, in order: the cached metadata (if present), the cached video
sequence header (if present), the cached audio sequence header (if
present), every message of every cached GOP in cache order, and then the
current broadcast message; the latch is then cleared, so the next
broadcast appends only the current message.  Holds identically for the
rtmp subscriber loop and the httpflv subscriber loop. -/
theorem broadcast_fresh_subscriber_replay (cache cache2 : GOPCache)
    (cur cur2 : AVData) (subs : List RTMPSubSession) (s : RTMPSubSession)
    (tcache tcache2 : GOPCache) (tcur tcur2 : AVData) (t : HTTPFLVSubSession)
    (hs : s ∈ subs) (hf : s.isFresh = true) (ht : t.isFresh = true) :
    broadcastToRTMPSub cache cur s ∈ broadcastRTMPSubs cache cur subs
    ∧ (broadcastToRTMPSub cache cur s).written
        = s.written ++ (cache.metadata.toList ++ cache.videoSeqHeader.toList
            ++ cache.aacSeqHeader.toList ++ cache.gops.flatten) ++ [cur]
    ∧ (broadcastToRTMPSub cache cur s).isFresh = false
    ∧ (broadcastToRTMPSub cache2 cur2 (broadcastToRTMPSub cache cur s)).written
        = (broadcastToRTMPSub cache cur s).written ++ [cur2]
    ∧ (broadcastToHTTPFLVSub tcache tcur t).written
        = t.written ++ (tcache.metadata.toList ++ tcache.videoSeqHeader.toList
            ++ tcache.aacSeqHeader.toList ++ tcache.gops.flatten) ++ [tcur]
    ∧ (broadcastToHTTPFLVSub tcache tcur t).isFresh = false
    ∧ (broadcastToHTTPFLVSub tcache2 tcur2 (broadcastToHTTPFLVSub tcache tcur t)).written
        = (broadcastToHTTPFLVSub tcache tcur t).written ++ [tcur2] := by
  refine ⟨List.mem_map_of_mem _ hs, ?_, ?_, ?_, ?_, ?_, ?_⟩ <;>
    simp [broadcastToRTMPSub, broadcastToHTTPFLVSub, hf, ht,
      freshReplayWrites_eq]

/-- Closed instance of `broadcast_fresh_subscriber_replay`: a fresh
subscriber in a one-element set receives the full replay then the live
message. -/
theorem broadcast_fresh_subscriber_replay_witness :
    (({ uniqueKey := 1, isFresh := true, written := [] } : RTMPSubSession)
        ∈ [({ uniqueKey := 1, isFresh := true, written := [] } : RTMPSubSession)]
      ∧ ({ uniqueKey := 1, isFresh := true, written := [] } : RTMPSubSession).isFresh = true
      ∧ ({ uniqueKey := 2, isFresh := true, written := [] } : HTTPFLVSubSession).isFresh = true)
    ∧ (broadcastToRTMPSub
        { metadata := some [1], videoSeqHeader := some [2], aacSeqHeader := none,
          gops := [[[3], [4]], [[5]]] } [9]
        { uniqueKey := 1, isFresh := true, written := [] }).written
      = ([] : List AVData) ++ (((some [1] : Option AVData).toList
          ++ (some [2] : Option AVData).toList ++ (none : Option AVData).toList
          ++ ([[[3], [4]], [[5]]] : List (List AVData)).flatten)) ++ [[9]] := by
  refine ⟨⟨by simp, rfl, rfl⟩, ?_⟩
  exact (broadcast_fresh_subscriber_replay
    { metadata := some [1], videoSeqHeader := some [2], aacSeqHeader := none,
      gops := [[[3], [4]], [[5]]] }
    emptyGOPCache [9] [10]
    [{ uniqueKey := 1, isFresh := true, written := [] }]
    { uniqueKey := 1, isFresh := true, written := [] }
    emptyGOPCache emptyGOPCache [9] [10]
    { uniqueKey := 2, isFresh := true, written := [] }
    (by simp) rfl rfl).2.1

/-- C4.  `AddRTMPPubSession` returns false and leaves the group unchanged
when a publisher is already installed; with no publisher it returns true
and installs the session; and after `DelRTMPPubSession`, a subsequent
`AddRTMPPubSession` succeeds again. -/
theorem add_pub_conflict_and_recovery (cfg : Config) (g : Group)
    (s s2 p : Nat) :
    (g.pubSession = some p → addRTMPPubSession cfg g s = (false, g))
    ∧ (g.pubSession = none →
        (addRTMPPubSession cfg g s).1 = true
        ∧ (addRTMPPubSession cfg g s).2.pubSession = some s)
    ∧ (addRTMPPubSession cfg (delRTMPPubSession cfg g) s2).1 = true
    ∧ (addRTMPPubSession cfg (delRTMPPubSession cfg g) s2).2.pubSession = some s2 := by
  have key : ∀ (g2 : Group), g2.pubSession = none →
      (addRTMPPubSession cfg g2 s2).1 = true
      ∧ (addRTMPPubSession cfg g2 s2).2.pubSession = some s2 := by
    intro g2 h
    unfold addRTMPPubSession
    rw [h]
    refine ⟨rfl, ?_⟩
    split_ifs <;> simp [pushIfNeeded_fst_pubSession]
  refine ⟨?_, ?_, key _ rfl⟩
  · intro h
    unfold addRTMPPubSession
    rw [h]
  · intro h
    unfold addRTMPPubSession
    rw [h]
    refine ⟨rfl, ?_⟩
    split_ifs <;> simp [pushIfNeeded_fst_pubSession]

/-! ### The pull-task transition system (for C8)

All entry points that reach `pullIfNeeded` (`AddRTMPSubSession`,
`AddHTTPFLVSubSession`, `Tick`) hold the group mutex, so the group-level
history is a sequence of serialized operations.  `pullTasks` counts pull
goroutines that have been spawned (group.go line 463) and have not yet
run their final `DelRTMPPullSession` (lines 468/474). -/

/-- A group plus the number of in-flight pull tasks. -/
structure GroupSys where
  group : Group
  pullTasks : Nat

/-- The serialized operations that touch the pull machinery. -/
inductive GroupOp where
  | addPub (s : Nat)
  | delPub
  | addRTMPSub (s : RTMPSubSession)
  | delRTMPSub (key : Nat)
  | addHTTPFLVSub (s : HTTPFLVSubSession)
  | delHTTPFLVSub (key : Nat)
  | tick
  /-- the pull task's `AddRTMPPullSession` on successful dial (only a
  live task can do this) -/
  | pullConnected (s : Nat)
  /-- the pull task's final `DelRTMPPullSession` before exiting (on dial
  failure or on the done signal) -/
  | pullDone

/-- One serialized step of the group history. -/
def GroupSys.step (cfg : Config) (sys : GroupSys) : GroupOp → GroupSys
  | .addPub s => { sys with group := (addRTMPPubSession cfg sys.group s).2 }
  | .delPub => { sys with group := delRTMPPubSession cfg sys.group }
  | .addRTMPSub s =>
    let r := addRTMPSubSession cfg sys.group s
    { group := r.1, pullTasks := sys.pullTasks + (if r.2 then 1 else 0) }
  | .delRTMPSub k => { sys with group := delRTMPSubSession sys.group k }
  | .addHTTPFLVSub s =>
    let r := addHTTPFLVSubSession cfg sys.group s
    { group := r.1, pullTasks := sys.pullTasks + (if r.2 then 1 else 0) }
  | .delHTTPFLVSub k => { sys with group := delHTTPFLVSubSession sys.group k }
  | .tick =>
    let r := pullIfNeeded cfg sys.group
    let r2 := pushIfNeeded cfg r.1
    { group := r2.1, pullTasks := sys.pullTasks + (if r.2 then 1 else 0) }
  | .pullConnected s =>
    if sys.pullTasks = 0 then sys
    else { sys with group := addRTMPPullSession cfg sys.group s }
  | .pullDone =>
    if sys.pullTasks = 0 then sys
    else { group := delRTMPPullSession cfg sys.group
           pullTasks := sys.pullTasks - 1 }

/-- A freshly constructed group has no pull task. -/
def GroupSys.init (cfg : Config) (app stream : String) : GroupSys :=
  { group := newGroup cfg app stream, pullTasks := 0 }

/-- Inductive invariant: at most one pull task, and none unless
`isPulling` is set. -/
def pullTaskInv (sys : GroupSys) : Prop :=
  sys.pullTasks ≤ 1 ∧ (sys.group.isPulling = false → sys.pullTasks = 0)

lemma pullIfNeeded_fst_isPulling_of_true (cfg : Config) (g : Group)
    (h : g.isPulling = true) : (pullIfNeeded cfg g).1.isPulling = true := by
  rcases pullIfNeeded_cases cfg g with hc | ⟨hp, hc⟩
  · rw [hc]; exact h
  · rw [hp] at h; cases h

lemma step_preserves_pullTaskInv (cfg : Config) (sys : GroupSys)
    (op : GroupOp) (h : pullTaskInv sys) :
    pullTaskInv (GroupSys.step cfg sys op) := by
  obtain ⟨h1, h2⟩ := h
  cases op with
  | addPub s =>
    refine ⟨h1, fun hf => h2 ?_⟩
    rwa [GroupSys.step, addRTMPPubSession_snd_isPulling] at hf
  | delPub => exact ⟨h1, fun hf => h2 hf⟩
  | addRTMPSub s =>
    rcases pullIfNeeded_cases cfg
        { sys.group with rtmpSubSessionSet := sys.group.rtmpSubSessionSet ++ [s] }
      with hc | ⟨hp, hc⟩
    · simp only [GroupSys.step, addRTMPSubSession, hc]
      exact ⟨by simpa using h1, fun hf => by simpa using h2 hf⟩
    · simp only [GroupSys.step, addRTMPSubSession, hc]
      have h0 := h2 hp
      refine ⟨by simp [h0], fun hf => ?_⟩
      exact absurd hf (by simp)
  | delRTMPSub k => exact ⟨h1, fun hf => h2 hf⟩
  | addHTTPFLVSub s =>
    rcases pullIfNeeded_cases cfg
        { sys.group with httpflvSubSessionSet := sys.group.httpflvSubSessionSet ++ [s] }
      with hc | ⟨hp, hc⟩
    · simp only [GroupSys.step, addHTTPFLVSubSession, hc]
      exact ⟨by simpa using h1, fun hf => by simpa using h2 hf⟩
    · simp only [GroupSys.step, addHTTPFLVSubSession, hc]
      have h0 := h2 hp
      refine ⟨by simp [h0], fun hf => ?_⟩
      exact absurd hf (by simp)
  | delHTTPFLVSub k => exact ⟨h1, fun hf => h2 hf⟩
  | tick =>
    rcases pullIfNeeded_cases cfg sys.group with hc | ⟨hp, hc⟩
    · simp only [GroupSys.step, hc]
      refine ⟨by simpa using h1, fun hf => ?_⟩
      rw [pushIfNeeded_fst_isPulling] at hf
      simpa using h2 hf
    · simp only [GroupSys.step, hc]
      have h0 := h2 hp
      refine ⟨by simp [h0], fun hf => ?_⟩
      rw [pushIfNeeded_fst_isPulling] at hf
      exact absurd hf (by simp)
  | pullConnected s =>
    by_cases h0 : sys.pullTasks = 0
    · simp only [GroupSys.step, if_pos h0]
      exact ⟨h1, fun hf => h2 hf⟩
    · simp only [GroupSys.step, if_neg h0]
      exact ⟨h1, fun hf => h2 hf⟩
  | pullDone =>
    by_cases h0 : sys.pullTasks = 0
    · simp only [GroupSys.step, if_pos h0]
      exact ⟨h1, fun hf => h2 hf⟩
    · simp only [GroupSys.step, if_neg h0]
      refine ⟨?_, fun _ => ?_⟩
      · show sys.pullTasks - 1 ≤ 1
        omega
      · show sys.pullTasks - 1 = 0
        omega

lemma foldl_preserves_pullTaskInv (cfg : Config) (ops : List GroupOp) :
    ∀ sys : GroupSys, pullTaskInv sys →
      pullTaskInv (ops.foldl (GroupSys.step cfg) sys) := by
  induction ops with
  | nil => intro sys h; exact h
  | cons op ops ih =>
    intro sys h
    exact ih _ (step_preserves_pullTaskInv cfg sys op h)

/-- C8.  Along any serialized history of group operations, at most one
pull task is in flight; `pullIfNeeded` spawns only when relay pull is
enabled, a subscriber exists, no publisher and no pull session is
installed, and `isPulling` is false — setting `isPulling` in the same
locked step; and `isPulling`, once set, is cleared only by the pull
task's own `DelRTMPPullSession`. -/
theorem at_most_one_pull_task (cfg : Config) (app stream : String)
    (ops : List GroupOp) (g : Group) :
    (ops.foldl (GroupSys.step cfg) (GroupSys.init cfg app stream)).pullTasks ≤ 1
    ∧ ((pullIfNeeded cfg g).2 = true →
        cfg.relayPullEnable = true
        ∧ (g.rtmpSubSessionSet ≠ [] ∨ g.httpflvSubSessionSet ≠ [])
        ∧ g.pubSession = none ∧ g.pullSession = none
        ∧ g.isPulling = false
        ∧ (pullIfNeeded cfg g).1.isPulling = true)
    ∧ (∀ (sys : GroupSys) (op : GroupOp), sys.group.isPulling = true →
        op ≠ GroupOp.pullDone →
        (GroupSys.step cfg sys op).group.isPulling = true) := by
  refine ⟨?_, ?_, ?_⟩
  · exact (foldl_preserves_pullTaskInv cfg ops _ ⟨Nat.zero_le 1, fun _ => rfl⟩).1
  · intro hsp
    obtain ⟨he, hsub, hpub, hpull, hip⟩ := (pullIfNeeded_spawn_iff cfg g).mp hsp
    refine ⟨he, hsub, hpub, hpull, hip, ?_⟩
    rcases pullIfNeeded_cases cfg g with hc | ⟨_, hc⟩
    · rw [hc] at hsp; cases hsp
    · rw [hc]
  · intro sys op hp hop
    cases op with
    | addPub s => rwa [GroupSys.step, addRTMPPubSession_snd_isPulling]
    | delPub => exact hp
    | addRTMPSub s =>
      exact pullIfNeeded_fst_isPulling_of_true cfg _ hp
    | delRTMPSub k => exact hp
    | addHTTPFLVSub s =>
      exact pullIfNeeded_fst_isPulling_of_true cfg _ hp
    | delHTTPFLVSub k => exact hp
    | tick =>
      simp only [GroupSys.step, pushIfNeeded_fst_isPulling]
      exact pullIfNeeded_fst_isPulling_of_true cfg _ hp
    | pullConnected s =>
      by_cases h0 : sys.pullTasks = 0
      · simp only [GroupSys.step, if_pos h0]
        exact hp
      · simp only [GroupSys.step, if_neg h0]
        exact hp
    | pullDone => exact absurd rfl hop

/-- Closed instance of `at_most_one_pull_task`: with relay pull enabled
and one subscriber on an otherwise empty group, `pullIfNeeded` spawns and
sets `isPulling`, and a two-operation history keeps `pullTasks ≤ 1`. -/
theorem at_most_one_pull_task_witness :
    (pullIfNeeded
        { hlsEnable := false, relayPullEnable := true, relayPullAddr := "up",
          relayPushEnable := false, relayPushAddrList := [] }
        { newGroup { hlsEnable := false, relayPullEnable := true,
                     relayPullAddr := "up", relayPushEnable := false,
                     relayPushAddrList := [] } "a" "s" with
          rtmpSubSessionSet := [{ uniqueKey := 1, isFresh := true, written := [] }] }).2
      = true
    ∧ ([GroupOp.addRTMPSub { uniqueKey := 1, isFresh := true, written := [] },
        GroupOp.tick].foldl
          (GroupSys.step { hlsEnable := false, relayPullEnable := true,
                           relayPullAddr := "up", relayPushEnable := false,
                           relayPushAddrList := [] })
          (GroupSys.init { hlsEnable := false, relayPullEnable := true,
                           relayPullAddr := "up", relayPushEnable := false,
                           relayPushAddrList := [] } "a" "s")).pullTasks ≤ 1
    ∧ (pullIfNeeded
        { hlsEnable := false, relayPullEnable := true, relayPullAddr := "up",
          relayPushEnable := false, relayPushAddrList := [] }
        { newGroup { hlsEnable := false, relayPullEnable := true,
                     relayPullAddr := "up", relayPushEnable := false,
                     relayPushAddrList := [] } "a" "s" with
          rtmpSubSessionSet := [{ uniqueKey := 1, isFresh := true, written := [] }] }).1.isPulling
      = true := by
  have h := at_most_one_pull_task
    { hlsEnable := false, relayPullEnable := true, relayPullAddr := "up",
      relayPushEnable := false, relayPushAddrList := [] } "a" "s"
    [GroupOp.addRTMPSub { uniqueKey := 1, isFresh := true, written := [] },
     GroupOp.tick]
    { newGroup { hlsEnable := false, relayPullEnable := true,
                 relayPullAddr := "up", relayPushEnable := false,
                 relayPushAddrList := [] } "a" "s" with
      rtmpSubSessionSet := [{ uniqueKey := 1, isFresh := true, written := [] }] }
  exact ⟨by decide, h.1, (h.2.1 (by decide)).2.2.2.2.2⟩

/-- Closed instance of `add_pub_conflict_and_recovery`: on a group whose
publisher is session 5, adding session 7 fails and changes nothing;
on a fresh group it succeeds; after deletion it succeeds again. -/
theorem add_pub_conflict_and_recovery_witness :
    (({ newGroup { hlsEnable := false, relayPullEnable := false,
                   relayPullAddr := "u", relayPushEnable := false,
                   relayPushAddrList := [] } "a" "s" with
        pubSession := some 5 } : Group).pubSession = some 5
      ∧ (newGroup { hlsEnable := false, relayPullEnable := false,
                    relayPullAddr := "u", relayPushEnable := false,
                    relayPushAddrList := [] } "a" "s").pubSession = none)
    ∧ addRTMPPubSession
        { hlsEnable := false, relayPullEnable := false, relayPullAddr := "u",
          relayPushEnable := false, relayPushAddrList := [] }
        ({ newGroup { hlsEnable := false, relayPullEnable := false,
                      relayPullAddr := "u", relayPushEnable := false,
                      relayPushAddrList := [] } "a" "s" with
           pubSession := some 5 }) 7
      = (false, { newGroup { hlsEnable := false, relayPullEnable := false,
                             relayPullAddr := "u", relayPushEnable := false,
                             relayPushAddrList := [] } "a" "s" with
                  pubSession := some 5 }) := by
  refine ⟨⟨rfl, rfl⟩, ?_⟩
  exact (add_pub_conflict_and_recovery
    { hlsEnable := false, relayPullEnable := false, relayPullAddr := "u",
      relayPushEnable := false, relayPushAddrList := [] }
    ({ newGroup { hlsEnable := false, relayPullEnable := false,
                  relayPullAddr := "u", relayPushEnable := false,
                  relayPushAddrList := [] } "a" "s" with
       pubSession := some 5 }) 7 7 5).1 rfl

/-! ### Mutex discipline (for C9)

Each group method is abstracted to its trace of lock, unlock and
field-mutation events, transcribed from group.go in source order.  Go's
`defer group.mutex.Unlock()` places the unlock at function exit; the two
pull-session methods instead call `Unlock()` on the line after `Lock()`
(group.go lines 194-195 and 208-209). -/

/-- The mutable fields of `logic.Group`. -/
inductive GField where
  | pubSessionF
  | pullSessionF
  | isPullingF
  | hlsMuxerF
  | gopCacheF
  | httpflvGopCacheF
  | rtmpSubSetF
  | httpflvSubSetF
  | pushProxyF

/-- One lock-relevant event inside a group method. -/
inductive MutexEvent where
  | lock
  | unlock
  | mutate (f : GField)

/-- Check that every mutation happens at positive lock depth. -/
def mutationsLocked : Nat → List MutexEvent → Bool
  | _, [] => true
  | d, .lock :: rest => mutationsLocked (d + 1) rest
  | d, .unlock :: rest => mutationsLocked (d - 1) rest
  | d, .mutate _ :: rest => decide (0 < d) && mutationsLocked d rest

/-- A method trace mutates only while holding the mutex. -/
def mutatesUnderMutex (tr : List MutexEvent) : Bool :=
  mutationsLocked 0 tr

/-- `AddRTMPPubSession` (group.go 142-162): Lock, deferred Unlock. -/
def addRTMPPubSessionTrace : List MutexEvent :=
  [.lock, .mutate .pubSessionF, .mutate .hlsMuxerF, .mutate .pushProxyF,
   .unlock]

/-- `DelRTMPPubSession` (group.go 168-188): Lock, deferred Unlock. -/
def delRTMPPubSessionTrace : List MutexEvent :=
  [.lock, .mutate .pubSessionF, .mutate .hlsMuxerF, .mutate .pushProxyF,
   .mutate .gopCacheF, .mutate .httpflvGopCacheF, .unlock]

/-- `AddRTMPPullSession` (group.go 194-202): `Lock()` immediately
followed by `Unlock()` — no defer — then the mutations. -/
def addRTMPPullSessionTrace : List MutexEvent :=
  [.lock, .unlock, .mutate .pullSessionF, .mutate .hlsMuxerF]

/-- `DelRTMPPullSession` (group.go 208-220): `Lock()` immediately
followed by `Unlock()` — no defer — then the mutations. -/
def delRTMPPullSessionTrace : List MutexEvent :=
  [.lock, .unlock, .mutate .pullSessionF, .mutate .isPullingF,
   .mutate .hlsMuxerF, .mutate .gopCacheF, .mutate .httpflvGopCacheF]

/-- `AddRTMPSubSession` (group.go 225-229; `pullIfNeeded` may set
`isPulling`). -/
def addRTMPSubSessionTrace : List MutexEvent :=
  [.lock, .mutate .rtmpSubSetF, .mutate .isPullingF, .unlock]

/-- `DelRTMPSubSession` (group.go 234-236). -/
def delRTMPSubSessionTrace : List MutexEvent :=
  [.lock, .mutate .rtmpSubSetF, .unlock]

/-- `AddHTTPFLVSubSession` (group.go 244-248). -/
def addHTTPFLVSubSessionTrace : List MutexEvent :=
  [.lock, .mutate .httpflvSubSetF, .mutate .isPullingF, .unlock]

/-- `DelHTTPFLVSubSession` (group.go 253-255). -/
def delHTTPFLVSubSessionTrace : List MutexEvent :=
  [.lock, .mutate .httpflvSubSetF, .unlock]

/-- `AddRTMPPushSession` (group.go 260-264). -/
def addRTMPPushSessionTrace : List MutexEvent :=
  [.lock, .mutate .pushProxyF, .unlock]

/-- `DelRTMPPushSession` (group.go 269-274). -/
def delRTMPPushSessionTrace : List MutexEvent :=
  [.lock, .mutate .pushProxyF, .unlock]

/-- C9.  The claim states that every group operation that mutates group
state — explicitly including `AddRTMPPullSession` and
`DelRTMPPullSession` — performs its mutation while holding the group
mutex.  The code contradicts it for exactly those two methods: they call
`Lock()` immediately followed by `Unlock()` (the `defer` keyword is
missing, group.go lines 194-195 and 208-209), so their assignments to
`pullSession`, `isPulling`, `hlsMuxer` and the GOP caches run outside the
mutex, while every other mutating method does hold it. -/
theorem pull_session_mutations_outside_mutex :
    mutatesUnderMutex addRTMPPullSessionTrace = false
    ∧ mutatesUnderMutex delRTMPPullSessionTrace = false
    ∧ mutatesUnderMutex addRTMPPubSessionTrace = true
    ∧ mutatesUnderMutex delRTMPPubSessionTrace = true
    ∧ mutatesUnderMutex addRTMPSubSessionTrace = true
    ∧ mutatesUnderMutex delRTMPSubSessionTrace = true
    ∧ mutatesUnderMutex addHTTPFLVSubSessionTrace = true
    ∧ mutatesUnderMutex delHTTPFLVSubSessionTrace = true
    ∧ mutatesUnderMutex addRTMPPushSessionTrace = true
    ∧ mutatesUnderMutex delRTMPPushSessionTrace = true :=
  ⟨rfl, rfl, rfl, rfl, rfl, rfl, rfl, rfl, rfl, rfl⟩

/-! ### Push-proxy url configuration (for C10) -/

lemma lookup_of_mem_keys {beta : Type} (l : List (String × beta))
    (url : String) (h : url ∈ l.map Prod.fst) :
    ∃ b, l.lookup url = some b := by
  induction l with
  | nil => simp at h
  | cons e rest ih =>
    obtain ⟨k, v⟩ := e
    rw [List.map_cons] at h
    rcases List.mem_cons.mp h with h1 | h1
    · exact ⟨v, by simp [List.lookup, beq_iff_eq.mpr h1]⟩
    · obtain ⟨b, hb⟩ := ih h1
      by_cases he : url = k
      · exact ⟨v, by simp [List.lookup, beq_iff_eq.mpr he]⟩
      · exact ⟨b, by simp [List.lookup, beq_eq_false_iff_ne.mpr he, hb]⟩

/-- C10.  `AddRTMPPushSession` and `DelRTMPPushSession` write through the
proxy pointer obtained from `url2PushProxy[url]`; for any url that is not
a key of the map built by `NewGroup` (the configured relay-push urls) the
Go map miss yields a nil `*pushProxy` and the field write panics, while
every configured url succeeds. -/
theorem push_session_requires_configured_url (cfg : Config)
    (app stream url : String) (s : Nat) (m : List (String × PushProxy))
    (hm : (newGroup cfg app stream).url2PushProxy = some m) :
    (m.lookup url = none →
      addRTMPPushSession (newGroup cfg app stream) url s = .nilPointerPanic
      ∧ delRTMPPushSession (newGroup cfg app stream) url = .nilPointerPanic)
    ∧ (cfg.relayPushEnable = true →
        url ∈ cfg.relayPushAddrList.map (fun a => pushURL a app stream) →
        addRTMPPushSession (newGroup cfg app stream) url s ≠ .nilPointerPanic
        ∧ delRTMPPushSession (newGroup cfg app stream) url ≠ .nilPointerPanic) := by
  constructor
  · intro hnone
    constructor
    · simp only [addRTMPPushSession, hm, hnone]
    · simp only [delRTMPPushSession, hm, hnone]
  · intro he hmem
    have hmval : m = cfg.relayPushAddrList.map
        (fun addr => (pushURL addr app stream,
          ({ isPushing := false, pushSession := none } : PushProxy))) := by
      have : (newGroup cfg app stream).url2PushProxy
          = some (cfg.relayPushAddrList.map
              (fun addr => (pushURL addr app stream,
                ({ isPushing := false, pushSession := none } : PushProxy)))) := by
        simp [newGroup, he]
      rw [this] at hm
      exact (Option.some_inj.mp hm).symm
    have hkeys : url ∈ m.map Prod.fst := by
      rw [hmval, List.map_map]
      simpa using hmem
    obtain ⟨p, hp⟩ := lookup_of_mem_keys m url hkeys
    constructor
    · simp only [addRTMPPushSession, hm, hp]
      simp
    · simp only [delRTMPPushSession, hm, hp]
      simp

/-- Closed instance of `push_session_requires_configured_url`: for a group
configured to push to host "h1", the unconfigured url "nope" panics and
the configured url succeeds. -/
theorem push_session_requires_configured_url_witness :
    ((newGroup { hlsEnable := false, relayPullEnable := false,
                 relayPullAddr := "", relayPushEnable := true,
                 relayPushAddrList := ["h1"] } "app" "st").url2PushProxy
        = some [(pushURL "h1" "app" "st",
                 { isPushing := false, pushSession := none })]
      ∧ ([(pushURL "h1" "app" "st",
           ({ isPushing := false, pushSession := none } : PushProxy))].lookup
            "nope") = none)
    ∧ addRTMPPushSession
        (newGroup { hlsEnable := false, relayPullEnable := false,
                    relayPullAddr := "", relayPushEnable := true,
                    relayPushAddrList := ["h1"] } "app" "st") "nope" 7
      = .nilPointerPanic
    ∧ addRTMPPushSession
        (newGroup { hlsEnable := false, relayPullEnable := false,
                    relayPullAddr := "", relayPushEnable := true,
                    relayPushAddrList := ["h1"] } "app" "st")
        (pushURL "h1" "app" "st") 7 ≠ .nilPointerPanic := by
  have h := push_session_requires_configured_url
    { hlsEnable := false, relayPullEnable := false, relayPullAddr := "",
      relayPushEnable := true, relayPushAddrList := ["h1"] }
    "app" "st" "nope" 7
    [(pushURL "h1" "app" "st", { isPushing := false, pushSession := none })]
    rfl
  have h2 := push_session_requires_configured_url
    { hlsEnable := false, relayPullEnable := false, relayPullAddr := "",
      relayPushEnable := true, relayPushAddrList := ["h1"] }
    "app" "st" (pushURL "h1" "app" "st") 7
    [(pushURL "h1" "app" "st", { isPushing := false, pushSession := none })]
    rfl
  refine ⟨⟨rfl, rfl⟩, ?_, ?_⟩
  · exact (h.1 rfl).1
  · exact (h2.2 rfl (by simp)).1


end Lal
